import Mathlib

/-!
# Verification of `stocktools` (src/pipeline/stock_indicators.py)

Shallow embedding of the stock-screening pipeline:

* numeric pandas series become `Series := List (Option ℚ)` (`none` = NaN);
  pandas comparisons against NaN are `false`;
* a pandas `DataFrame` becomes an ordered association list of named columns
  of `Cell`s; `data['X'] = v` overwrites the column in place or appends it;
* the external TA-Lib functions (`talib.MACD`, `talib.RSI`) are parameters
  of the engine functions: the engine only forwards the close column and the
  configuration to them, so theorems quantify over all total TA functions;
* Python exceptions become `Except String`;
* timestamps become `ℕ` (ordered, as `pd.Timestamp`s are).
-/

/-- A pandas numeric series: `none` is NaN (undefined warm-up values). -/
abbrev Series := List (Option ℚ)

/-- Pandas `a <= b` on possibly-NaN values: NaN compares `false`. -/
def optLe : Option ℚ → Option ℚ → Bool
  | some a, some b => decide (a ≤ b)
  | _, _ => false

/-- Pandas `a > b` on possibly-NaN values: NaN compares `false`. -/
def optGt : Option ℚ → Option ℚ → Bool
  | some a, some b => decide (b < a)
  | _, _ => false

/-- Pandas `a < c` of a possibly-NaN value against a scalar. -/
def optLtC (a : Option ℚ) (c : ℚ) : Bool :=
  match a with
  | some x => decide (x < c)
  | none => false

/-- Pandas `a >= c` of a possibly-NaN value against a scalar. -/
def optGeC (a : Option ℚ) (c : ℚ) : Bool :=
  match a with
  | some x => decide (c ≤ x)
  | none => false

/-- Pandas `s.shift(1)`: first entry becomes NaN, the rest move down one. -/
def shift1 (s : Series) : Series := none :: s.dropLast

/-- `cross_up = (macd.shift(1) <= signal.shift(1)) & (macd > signal)`
(stock_indicators.py line 40). -/
def crossUp (line other : Series) : List Bool :=
  List.zipWith (fun p q => p && q)
    (List.zipWith optLe (shift1 line) (shift1 other))
    (List.zipWith optGt line other)

/-- `data['Buy Signal'] = (rsi < low_line) & (rsi.shift(1) >= low_line)`
(stock_indicators.py line 85). -/
def rsiBuy (rsi : Series) (low : ℚ) : List Bool :=
  List.zipWith (fun p q => p && q)
    (rsi.map (fun v => optLtC v low))
    ((shift1 rsi).map (fun v => optGeC v low))

/-- One cell of a DataFrame column. -/
inductive Cell where
  | num (q : ℚ)
  | nan
  | time (t : ℕ)
  | flag (b : Bool)
deriving DecidableEq, Repr

/-- A pandas DataFrame: ordered named columns. -/
structure DataFrame where
  cols : List (String × List Cell)
deriving DecidableEq, Repr

/-- `name in data.columns`. -/
def DataFrame.hasCol (df : DataFrame) (name : String) : Bool :=
  df.cols.any (fun p => p.1 == name)

/-- `data[name]` read access, `none` when the column is absent. -/
def DataFrame.getCol (df : DataFrame) (name : String) : Option (List Cell) :=
  (df.cols.find? (fun p => p.1 == name)).map Prod.snd

/-- `data[name] = col`: overwrite in place if present, else append the column. -/
def DataFrame.setCol (df : DataFrame) (name : String) (col : List Cell) : DataFrame :=
  if df.hasCol name then
    ⟨df.cols.map (fun p => if p.1 == name then (name, col) else p)⟩
  else
    ⟨df.cols ++ [(name, col)]⟩

/-- Read a numeric column as a `Series` (non-numeric cells read as NaN). -/
def DataFrame.numCol (df : DataFrame) (name : String) : Series :=
  ((df.getCol name).getD []).map (fun c =>
    match c with
    | Cell.num q => some q
    | _ => none)

/-- Store a numeric `Series` back as a column of cells. -/
def ofSeries (s : Series) : List Cell :=
  s.map (fun v =>
    match v with
    | some q => Cell.num q
    | none => Cell.nan)

/-- Timestamp value of a cell (Datetime columns hold `Cell.time`). -/
def cellTime : Cell → ℕ
  | Cell.time t => t
  | _ => 0

/-- `data.loc[data['Buy Signal'], 'Datetime']`: the timestamps of the
flagged rows, in row order. -/
def selectFlagged (times : List ℕ) (flags : List Bool) : List ℕ :=
  (List.zip times flags).filterMap (fun p => if p.2 then some p.1 else none)

/-- Pandas `.max()` over a nonempty selection. -/
def listMax (x : ℕ) (xs : List ℕ) : ℕ := xs.foldl max x

/-- `data.loc[data['Buy Signal'], 'Datetime'].max() if not
data.loc[data['Buy Signal']].empty else None` (lines 51 and 89): the
auxiliary "most recent signal date" scalar. -/
def lastBuySignal (times : List ℕ) (flags : List Bool) : Option ℕ :=
  match selectFlagged times flags with
  | [] => none
  | x :: xs => some (listMax x xs)

/-- `config.MACD_CONFIG`. -/
structure MACDConfig where
  fast_length : ℕ
  slow_length : ℕ
  signal_length : ℕ

/-- `config.RSI_CONFIG`. -/
structure RSIConfig where
  period : ℕ
  up_line : ℚ
  low_line : ℚ

/-- `StockIndicators.calculate_macd`, parametric in the external
`talib.MACD` (which receives the configured periods and the close series
and returns the macd line, signal line and histogram). -/
def calculate_macd (tf : MACDConfig → Series → Series × Series × Series)
    (cfg : MACDConfig) (df : DataFrame) : Except String (DataFrame × Option ℕ) :=
  if df.hasCol "Close" = false then
    Except.error "The input data must contain a Close column."
  else
    let r := tf cfg (df.numCol "Close")
    let macd := r.1
    let signl := r.2.1
    let hist := r.2.2
    let flags := crossUp macd signl
    let d := ((((df.setCol "MACD" (ofSeries macd)).setCol
        "Signal Line" (ofSeries signl)).setCol
        "Histogram" (ofSeries hist)).setCol
        "Buy Signal" (flags.map Cell.flag))
    if flags.any id = false then Except.ok (d, none)
    else
      match d.getCol "Datetime" with
      | none => Except.error "KeyError: Datetime"
      | some tc => Except.ok (d, lastBuySignal (tc.map cellTime) flags)

/-- `StockIndicators.calculate_rsi` (parametric in the external
`talib.RSI`, which receives the configured period and the close series). -/
def calculate_rsi (tf : RSIConfig → Series → Series)
    (cfg : RSIConfig) (res : String) (df : DataFrame) :
    Except String (DataFrame × Option ℕ) :=
  if df.hasCol "Close" = false then
    Except.error "The input data must contain a Close column."
  else
    let rsi := tf cfg (df.numCol "Close")
    let flags := rsiBuy rsi cfg.low_line
    let d := ((df.setCol ("RSI_" ++ res) (ofSeries rsi)).setCol
        "Buy Signal" (flags.map Cell.flag))
    if flags.any id = false then Except.ok (d, none)
    else
      match d.getCol "Datetime" with
      | none => Except.error "KeyError: Datetime"
      | some tc => Except.ok (d, lastBuySignal (tc.map cellTime) flags)

/-- One output row: `(Datetime, symbol, signal type)`. -/
structure SignalRecord where
  datetime : ℕ
  symbol : String
  sigtype : String
deriving DecidableEq, Repr

/-- Whether `p` is a prefix of `s` (character lists). -/
def strStartsWith : List Char → List Char → Bool
  | _, [] => true
  | [], _ :: _ => false
  | c :: s, p :: ps => c == p && strStartsWith s ps

/-- Helper for `strReplace`, structurally recursive on a fuel bound (the
fuel is the length of the string being scanned, which strictly bounds the
number of steps, so it never runs out). -/
def strReplaceAux : ℕ → List Char → List Char → List Char → List Char
  | _, [], _, _ => []
  | 0, s, _, _ => s
  | fuel + 1, c :: rest, pat, rep =>
    if pat ≠ [] ∧ strStartsWith (c :: rest) pat then
      rep ++ strReplaceAux fuel ((c :: rest).drop pat.length) pat rep
    else
      c :: strReplaceAux fuel rest pat rep

/-- Python `str.replace`: replace every occurrence of `pat` by `rep`,
scanning left to right (no-op on an empty pattern is irrelevant for the
nonempty patterns used here). -/
def strReplace (s pat rep : List Char) : List Char :=
  strReplaceAux s.length s pat rep

/-- Python `str.upper` for the ASCII names used here. -/
def pyUpper (s : List Char) : List Char := s.map Char.toUpper

/-- `indicator.__name__.replace('calculate_', '').upper()` (line 136). -/
def sigTypeOf (name : String) : String :=
  ⟨pyUpper (strReplace name.toList "calculate_".toList [])⟩

/-- An indicator handed to the screener: its `__name__` and the function
itself (`data ↦ (modified data, auxiliary scalar)` or an error). -/
structure Indicator where
  name : String
  run : DataFrame → Except String (DataFrame × Option ℕ)

/-- Lines 133-138: for the column named `'Buy Signal'` (if present), take
the `Datetime` of every row where it is true and build one record per row
with the symbol and the derived signal type. -/
def extractSignals (symbol : String) (indName : String) (d : DataFrame) :
    List SignalRecord :=
  match d.getCol "Buy Signal" with
  | none => []
  | some flagcells =>
    let times := (d.getCol "Datetime").getD []
    (List.zip times flagcells).filterMap (fun p =>
      match p.2 with
      | Cell.flag true => some ⟨cellTime p.1, symbol, sigTypeOf indName⟩
      | _ => none)

/-- The inner `for indicator in indicators` loop (lines 126-138): each
indicator is applied to the dataframe left by the previous one
(`data = result[0]`), and its buy signals are appended. An exception
from any indicator aborts the whole run. -/
def processIndicators (symbol : String) (inds : List Indicator)
    (d : DataFrame) : Except String (List SignalRecord) :=
  match inds with
  | [] => Except.ok []
  | ind :: rest => do
    let r ← ind.run d
    let d2 := r.1
    let sigs := extractSignals symbol ind.name d2
    let more ← processIndicators symbol rest d2
    Except.ok (sigs ++ more)

/-- Lines 115-138 for one file: `(symbol, parsed dataframe)`. A missing
`Datetime` column raises (line 121); otherwise all indicators run. -/
def processFile (inds : List Indicator) (file : String × DataFrame) :
    Except String (List SignalRecord) :=
  if file.2.hasCol "Datetime" = false then
    Except.error ("The file " ++ file.1 ++ ".csv must contain a Datetime column.")
  else
    processIndicators file.1 inds file.2

/-- The outer loop of `StockScreener.screen_by_indicators`: every file in
listing order; an uncaught exception for any file aborts the run before
anything is written. -/
def collectSignals (inds : List Indicator) (files : List (String × DataFrame)) :
    Except String (List SignalRecord) :=
  match files with
  | [] => Except.ok []
  | f :: rest => do
    let s ← processFile inds f
    let more ← collectSignals inds rest
    Except.ok (s ++ more)

/-- One row of the output CSV: the header or a record row. -/
inductive OutRow where
  | header
  | row (r : SignalRecord)
deriving DecidableEq, Repr

/-- The output file: `none` when it does not exist, else its rows. -/
abbrev FileState := Option (List OutRow)

/-- Lines 141-156: if any signals were collected, append them with
`mode='a'` and `header=not os.path.exists(output_file)`; with no signals
nothing is written at all. -/
def writeSignals (sigs : List SignalRecord) (fs : FileState) : FileState :=
  if sigs.isEmpty then fs
  else
    match fs with
    | none => some (OutRow.header :: sigs.map OutRow.row)
    | some rows => some (rows ++ sigs.map OutRow.row)

/-- A whole `screen_by_indicators` run: collect, then persist. On an
uncaught exception the file is left untouched (`to_csv` runs only after
all files succeeded). -/
def runPipeline (inds : List Indicator) (files : List (String × DataFrame))
    (fs : FileState) : Except String FileState := do
  let sigs ← collectSignals inds files
  Except.ok (writeSignals sigs fs)

lemma shift1_getElem? (s : Series) (i : ℕ) (h1 : 1 ≤ i) (hi : i < s.length) :
    (shift1 s)[i]? = s[i - 1]? := by
  unfold shift1
  obtain ⟨j, rfl⟩ : ∃ j, i = j + 1 := ⟨i - 1, (Nat.succ_pred_eq_of_pos h1).symm⟩
  simp only [List.getElem?_cons_succ, List.getElem?_dropLast, Nat.add_sub_cancel]
  rw [if_pos (by omega)]

/-- C1: for aligned MACD and signal series and any bar `i ≥ 1`, the
upward-crossover flag at `i` is true iff both series are defined at `i-1`
and `i`, the line is `≤` the other at `i-1` and `>` the other at `i`;
undefined inputs never flag, and equality at the prior bar alone does not
flag. -/
theorem macd_crossup_iff (lineS otherS : Series) (i : ℕ)
    (hlen : lineS.length = otherS.length) (h1 : 1 ≤ i) (hi : i < lineS.length) :
    (crossUp lineS otherS).getD i false = true ↔
      ∃ a b c d, lineS.getD (i - 1) none = some a ∧ otherS.getD (i - 1) none = some b ∧
        lineS.getD i none = some c ∧ otherS.getD i none = some d ∧
        a ≤ b ∧ d < c := by
  have hio : i - 1 < lineS.length := by omega
  have hi2 : i < otherS.length := hlen ▸ hi
  have hio2 : i - 1 < otherS.length := by omega
  obtain ⟨la, hla⟩ : ∃ v, lineS[i - 1]? = some v := ⟨_, List.getElem?_eq_getElem hio⟩
  obtain ⟨oa, hoa⟩ : ∃ v, otherS[i - 1]? = some v := ⟨_, List.getElem?_eq_getElem hio2⟩
  obtain ⟨lb, hlb⟩ : ∃ v, lineS[i]? = some v := ⟨_, List.getElem?_eq_getElem hi⟩
  obtain ⟨ob, hob⟩ : ∃ v, otherS[i]? = some v := ⟨_, List.getElem?_eq_getElem hi2⟩
  rw [crossUp, List.getD_eq_getElem?_getD, List.getElem?_zipWith,
    List.getElem?_zipWith, List.getElem?_zipWith,
    shift1_getElem? lineS i h1 hi, shift1_getElem? otherS i h1 hi2,
    hla, hoa, hlb, hob,
    List.getD_eq_getElem?_getD, List.getD_eq_getElem?_getD,
    List.getD_eq_getElem?_getD, List.getD_eq_getElem?_getD,
    hla, hoa, hlb, hob]
  cases la <;> cases oa <;> cases lb <;> cases ob <;> simp [optLe, optGt]

/-- Witness for C1 at a concrete crossover: line `[0, 2]` against signal
`[1, 1]` flags bar 1. -/
theorem macd_crossup_iff_witness :
    (crossUp [some 0, some 2] [some 1, some 1]).getD 1 false = true :=
  (macd_crossup_iff [some 0, some 2] [some 1, some 1] 1 rfl
    (by norm_num) (by norm_num)).mpr
    ⟨0, 1, 2, 1, rfl, rfl, rfl, rfl, by norm_num, by norm_num⟩

/-- C2: the RSI buy flag at bar `i ≥ 1` is true iff the value at `i` is
strictly below the lower line and the value at `i-1` is at or above it,
both defined; so only the bar where the value first drops below the line
flags, never the recovery bar. -/
theorem rsi_buy_iff (rsi : Series) (low : ℚ) (i : ℕ)
    (h1 : 1 ≤ i) (hi : i < rsi.length) :
    (rsiBuy rsi low).getD i false = true ↔
      ∃ a b, rsi.getD i none = some a ∧ rsi.getD (i - 1) none = some b ∧
        a < low ∧ low ≤ b := by
  have hio : i - 1 < rsi.length := by omega
  obtain ⟨va, hva⟩ : ∃ v, rsi[i]? = some v := ⟨_, List.getElem?_eq_getElem hi⟩
  obtain ⟨vb, hvb⟩ : ∃ v, rsi[i - 1]? = some v := ⟨_, List.getElem?_eq_getElem hio⟩
  rw [rsiBuy, List.getD_eq_getElem?_getD, List.getElem?_zipWith,
    List.getElem?_map, List.getElem?_map,
    shift1_getElem? rsi i h1 hi, hva, hvb,
    List.getD_eq_getElem?_getD, List.getD_eq_getElem?_getD, hva, hvb]
  cases va <;> cases vb <;> simp [optLtC, optGeC]

/-- Witness for C2: RSI `[35, 29]` with lower line 30 flags bar 1, where
the value first drops below the line. -/
theorem rsi_buy_iff_witness :
    (rsiBuy [some 35, some 29] 30).getD 1 false = true :=
  (rsi_buy_iff [some 35, some 29] 30 1 (by norm_num) (by norm_num)).mpr
    ⟨29, 35, rfl, rfl, by norm_num, by norm_num⟩

lemma find?_set_self (cols : List (String × List Cell)) (n : String) (col : List Cell)
    (h : cols.any (fun p => p.1 == n) = true) :
    (cols.map (fun p => if p.1 == n then (n, col) else p)).find?
      (fun p => p.1 == n) = some (n, col) := by
  induction cols with
  | nil => simp at h
  | cons p ps ih =>
    by_cases hp : (p.1 == n) = true
    · rw [List.map_cons, if_pos hp]
      simp only [List.find?_cons, beq_self_eq_true]
    · rw [List.map_cons, if_neg hp]
      simp only [List.find?_cons, hp]
      simp only [List.any_cons, hp, Bool.false_or] at h
      exact ih h

lemma find?_append_self (cols : List (String × List Cell)) (n : String) (col : List Cell)
    (h : cols.any (fun p => p.1 == n) = false) :
    (cols ++ [(n, col)]).find? (fun p => p.1 == n) = some (n, col) := by
  induction cols with
  | nil => simp only [List.nil_append, List.find?_cons, beq_self_eq_true]
  | cons p ps ih =>
    simp only [List.any_cons, Bool.or_eq_false_iff] at h
    rw [List.cons_append]
    simp only [List.find?_cons, h.1]
    exact ih h.2

/-- Writing column `n` makes it readable back: `data[n] = col; data[n] == col`. -/
lemma getCol_setCol_self (df : DataFrame) (n : String) (col : List Cell) :
    (df.setCol n col).getCol n = some col := by
  obtain ⟨cols⟩ := df
  unfold DataFrame.setCol DataFrame.getCol DataFrame.hasCol
  split
  · rename_i h
    rw [show ∀ l, (DataFrame.mk l).cols = l from fun _ => rfl, find?_set_self cols n col h]
    rfl
  · rename_i h
    rw [show ∀ l, (DataFrame.mk l).cols = l from fun _ => rfl,
      find?_append_self cols n col (by rw [Bool.not_eq_true] at h; exact h)]
    rfl

lemma find?_set_ne (cols : List (String × List Cell)) (m n : String) (col : List Cell)
    (hmn : m ≠ n) :
    (cols.map (fun p => if p.1 == n then (n, col) else p)).find?
      (fun p => p.1 == m) = cols.find? (fun p => p.1 == m) := by
  induction cols with
  | nil => simp
  | cons p ps ih =>
    by_cases hp : (p.1 == n) = true
    · have hp' : p.1 = n := by simpa using hp
      have hnm : (n == m) = false := by
        rw [beq_eq_false_iff_ne]
        exact Ne.symm hmn
      have hpm : (p.1 == m) = false := by rw [hp']; exact hnm
      rw [List.map_cons, if_pos hp]
      simp only [List.find?_cons, hnm, hpm]
      exact ih
    · rw [List.map_cons, if_neg hp]
      by_cases hpm : (p.1 == m) = true
      · simp only [List.find?_cons, hpm]
      · have hpm2 : (p.1 == m) = false := by rw [Bool.not_eq_true] at hpm; exact hpm
        simp only [List.find?_cons, hpm2]
        exact ih

lemma find?_append_ne (cols : List (String × List Cell)) (m n : String) (col : List Cell)
    (hmn : m ≠ n) :
    (cols ++ [(n, col)]).find? (fun p => p.1 == m) = cols.find? (fun p => p.1 == m) := by
  induction cols with
  | nil =>
    have hnm : (n == m) = false := by
      rw [beq_eq_false_iff_ne]
      exact Ne.symm hmn
    simp only [List.nil_append, List.find?_cons, hnm, List.find?_nil]
  | cons p ps ih =>
    by_cases hpm : (p.1 == m) = true
    · rw [List.cons_append]
      simp only [List.find?_cons, hpm]
    · have hpm2 : (p.1 == m) = false := by rw [Bool.not_eq_true] at hpm; exact hpm
      rw [List.cons_append]
      simp only [List.find?_cons, hpm2]
      exact ih

/-- Writing column `n` leaves every other column unchanged. -/
lemma getCol_setCol_ne (df : DataFrame) (m n : String) (col : List Cell)
    (hmn : m ≠ n) : (df.setCol n col).getCol m = df.getCol m := by
  obtain ⟨cols⟩ := df
  unfold DataFrame.setCol DataFrame.getCol
  split
  · rw [show ∀ l, (DataFrame.mk l).cols = l from fun _ => rfl, find?_set_ne cols m n col hmn]
  · rw [show ∀ l, (DataFrame.mk l).cols = l from fun _ => rfl, find?_append_ne cols m n col hmn]

/-- A present column can be read. -/
lemma getCol_of_hasCol (df : DataFrame) (n : String) (h : df.hasCol n = true) :
    ∃ c, df.getCol n = some c := by
  obtain ⟨cols⟩ := df
  unfold DataFrame.getCol DataFrame.hasCol at *
  rw [show ∀ l, (DataFrame.mk l).cols = l from fun _ => rfl] at h ⊢
  induction cols with
  | nil => simp at h
  | cons p ps ih =>
    by_cases hp : (p.1 == n) = true
    · refine ⟨p.2, ?_⟩
      simp only [List.find?_cons, hp]
      rfl
    · simp only [List.any_cons, hp, Bool.false_or] at h
      obtain ⟨c, hc⟩ := ih h
      refine ⟨c, ?_⟩
      have hp2 : (p.1 == n) = false := by rw [Bool.not_eq_true] at hp; exact hp
      simp only [List.find?_cons, hp2]
      exact hc

lemma calculate_macd_ok (tf : MACDConfig → Series → Series × Series × Series)
    (cfg : MACDConfig) (df d : DataFrame) (aux : Option ℕ)
    (h : calculate_macd tf cfg df = Except.ok (d, aux)) :
    d = ((((df.setCol "MACD" (ofSeries (tf cfg (df.numCol "Close")).1)).setCol
        "Signal Line" (ofSeries (tf cfg (df.numCol "Close")).2.1)).setCol
        "Histogram" (ofSeries (tf cfg (df.numCol "Close")).2.2)).setCol
        "Buy Signal" ((crossUp (tf cfg (df.numCol "Close")).1
          (tf cfg (df.numCol "Close")).2.1).map Cell.flag)) ∧
    (((crossUp (tf cfg (df.numCol "Close")).1 (tf cfg (df.numCol "Close")).2.1).any id = false
        ∧ aux = none) ∨
      ((crossUp (tf cfg (df.numCol "Close")).1 (tf cfg (df.numCol "Close")).2.1).any id = true
        ∧ ∃ tc, d.getCol "Datetime" = some tc ∧
          aux = lastBuySignal (tc.map cellTime)
            (crossUp (tf cfg (df.numCol "Close")).1 (tf cfg (df.numCol "Close")).2.1))) := by
  unfold calculate_macd at h
  split at h
  · exact absurd h (by simp)
  · dsimp only at h
    split at h
    · rename_i hany
      rw [Except.ok.injEq, Prod.mk.injEq] at h
      obtain ⟨hd, ha⟩ := h
      exact ⟨hd.symm, Or.inl ⟨hany, ha.symm⟩⟩
    · rename_i hany
      split at h
      · exact absurd h (by simp)
      · rename_i tc htc
        rw [Except.ok.injEq, Prod.mk.injEq] at h
        obtain ⟨hd, ha⟩ := h
        exact ⟨hd.symm, Or.inr ⟨by simpa using hany, tc, hd ▸ htc, ha.symm⟩⟩

lemma calculate_rsi_ok (tf : RSIConfig → Series → Series)
    (cfg : RSIConfig) (res : String) (df d : DataFrame) (aux : Option ℕ)
    (h : calculate_rsi tf cfg res df = Except.ok (d, aux)) :
    d = ((df.setCol ("RSI_" ++ res) (ofSeries (tf cfg (df.numCol "Close")))).setCol
        "Buy Signal" ((rsiBuy (tf cfg (df.numCol "Close")) cfg.low_line).map Cell.flag)) ∧
    (((rsiBuy (tf cfg (df.numCol "Close")) cfg.low_line).any id = false ∧ aux = none) ∨
      ((rsiBuy (tf cfg (df.numCol "Close")) cfg.low_line).any id = true ∧
        ∃ tc, d.getCol "Datetime" = some tc ∧
          aux = lastBuySignal (tc.map cellTime)
            (rsiBuy (tf cfg (df.numCol "Close")) cfg.low_line))) := by
  unfold calculate_rsi at h
  split at h
  · exact absurd h (by simp)
  · dsimp only at h
    split at h
    · rename_i hany
      rw [Except.ok.injEq, Prod.mk.injEq] at h
      obtain ⟨hd, ha⟩ := h
      exact ⟨hd.symm, Or.inl ⟨hany, ha.symm⟩⟩
    · rename_i hany
      split at h
      · exact absurd h (by simp)
      · rename_i tc htc
        rw [Except.ok.injEq, Prod.mk.injEq] at h
        obtain ⟨hd, ha⟩ := h
        exact ⟨hd.symm, Or.inr ⟨by simpa using hany, tc, hd ▸ htc, ha.symm⟩⟩

lemma ne_append_left (pre rest : String) (s : String)
    (h : s.data.head? ≠ pre.data.head?) (hp : pre.data ≠ []) : s ≠ pre ++ rest := by
  intro he
  apply h
  rw [he]
  show (pre ++ rest).data.head? = _
  cases pre with
  | mk pd =>
    cases rest with
    | mk rd =>
      show (pd ++ rd).head? = pd.head?
      cases pd with
      | nil => exact absurd rfl hp
      | cons c cs => rfl

example (res : String) : "Datetime" ≠ "RSI_" ++ res :=
  ne_append_left "RSI_" res "Datetime" (by decide) (by decide)

/-- C5: a missing close column makes both engine calculations raise the
missing-column error for every TA function and every parameter set (so
before anything is computed), and a missing timestamp column makes the
screening of that file raise. -/
theorem missing_column_errors :
    (∀ tf cfg df, df.hasCol "Close" = false →
      calculate_macd tf cfg df =
        Except.error "The input data must contain a Close column.") ∧
    (∀ tf cfg res df, df.hasCol "Close" = false →
      calculate_rsi tf cfg res df =
        Except.error "The input data must contain a Close column.") ∧
    (∀ inds file, (Prod.snd file).hasCol "Datetime" = false →
      processFile inds file =
        Except.error ("The file " ++ file.1 ++ ".csv must contain a Datetime column.")) := by
  refine ⟨fun tf cfg df h => ?_, fun tf cfg res df h => ?_, fun inds file h => ?_⟩
  · unfold calculate_macd
    rw [h, if_pos rfl]
  · unfold calculate_rsi
    rw [h, if_pos rfl]
  · unfold processFile
    rw [h, if_pos rfl]

/-- Witness for C5 on concrete inputs: a table with only a timestamp
column makes both calculations raise, and a file with only a close column
makes the screening raise. -/
theorem missing_column_errors_witness :
    calculate_macd (fun _ _ => ([], [], [])) ⟨12, 26, 9⟩
        ⟨[("Datetime", [Cell.time 1])]⟩ =
      Except.error "The input data must contain a Close column." ∧
    calculate_rsi (fun _ _ => []) ⟨14, 70, 30⟩ "1D"
        ⟨[("Datetime", [Cell.time 1])]⟩ =
      Except.error "The input data must contain a Close column." ∧
    processFile [] ("AAPL", ⟨[("Close", [Cell.num 1])]⟩) =
      Except.error "The file AAPL.csv must contain a Datetime column." :=
  ⟨missing_column_errors.1 _ _ _ rfl, missing_column_errors.2.1 _ _ _ _ rfl,
    missing_column_errors.2.2 [] ("AAPL", ⟨[("Close", [Cell.num 1])]⟩) rfl⟩

/-- C6 counterexample: an empty price series (zero rows, with close and
timestamp columns) and parameters violating `fast < slow` (fast 26, slow
12) are accepted: the calculation returns successfully instead of raising
`InvalidInputError`. -/
theorem empty_and_bad_params_accepted :
    calculate_macd (fun _ _ => ([], [], [])) ⟨26, 12, 9⟩
        ⟨[("Datetime", []), ("Close", [])]⟩ =
      Except.ok (⟨[("Datetime", []), ("Close", []), ("MACD", []),
        ("Signal Line", []), ("Histogram", []), ("Buy Signal", [])]⟩, none) := by
  rfl

/-- C6 amended: the engine boundary validates only the presence of the
close column. Whenever the close and timestamp columns are present the
calculation succeeds for every (total) TA function, every parameter set —
including non-positive periods and `fast ≥ slow` — and every series
length, including the empty series: no emptiness or parameter check
exists at the engine boundary. -/
theorem engine_checks_only_close :
    (∀ tf cfg df, df.hasCol "Close" = true → df.hasCol "Datetime" = true →
      ∃ d aux, calculate_macd tf cfg df = Except.ok (d, aux)) ∧
    (∀ tf cfg res df, df.hasCol "Close" = true → df.hasCol "Datetime" = true →
      ∃ d aux, calculate_rsi tf cfg res df = Except.ok (d, aux)) := by
  constructor
  · intro tf cfg df h1 h2
    unfold calculate_macd
    rw [h1, if_neg (by simp)]
    dsimp only
    by_cases hany : (crossUp (tf cfg (df.numCol "Close")).1
        (tf cfg (df.numCol "Close")).2.1).any id = false
    · rw [if_pos hany]
      exact ⟨_, _, rfl⟩
    · rw [if_neg hany]
      obtain ⟨tc, htc⟩ := getCol_of_hasCol df "Datetime" h2
      rw [getCol_setCol_ne _ _ _ _ (by decide), getCol_setCol_ne _ _ _ _ (by decide),
        getCol_setCol_ne _ _ _ _ (by decide), getCol_setCol_ne _ _ _ _ (by decide), htc]
      exact ⟨_, _, rfl⟩
  · intro tf cfg res df h1 h2
    unfold calculate_rsi
    rw [h1, if_neg (by simp)]
    dsimp only
    by_cases hany : (rsiBuy (tf cfg (df.numCol "Close")) cfg.low_line).any id = false
    · rw [if_pos hany]
      exact ⟨_, _, rfl⟩
    · rw [if_neg hany]
      obtain ⟨tc, htc⟩ := getCol_of_hasCol df "Datetime" h2
      rw [getCol_setCol_ne _ _ _ _ (by decide),
        getCol_setCol_ne _ _ _ _ (ne_append_left "RSI_" res "Datetime" (by decide) (by decide)),
        htc]
      exact ⟨_, _, rfl⟩

/-- Witness for the amended C6: the engine accepts an empty series. -/
theorem engine_checks_only_close_witness :
    ∃ d aux, calculate_macd (fun _ _ => ([], [], [])) ⟨0, 0, 0⟩
      ⟨[("Datetime", []), ("Close", [])]⟩ = Except.ok (d, aux) :=
  engine_checks_only_close.1 _ _ _ rfl rfl

/-- C7 counterexample: `calculate_macd` mutates the caller's dataframe.
On a concrete two-bar input the object the caller holds after the call
(our embedding threads the mutated object through the return value)
carries four added columns, so it is not the unchanged input. -/
theorem macd_mutates_input :
    (calculate_macd
        (fun _ _ => ([some 0, some 2], [some 1, some 1], [some (-1), some 1]))
        ⟨12, 26, 9⟩
        ⟨[("Datetime", [Cell.time 100, Cell.time 200]),
          ("Close", [Cell.num 10, Cell.num 11])]⟩).map Prod.fst =
      Except.ok (DataFrame.mk [("Datetime", [Cell.time 100, Cell.time 200]),
        ("Close", [Cell.num 10, Cell.num 11]),
        ("MACD", [Cell.num 0, Cell.num 2]),
        ("Signal Line", [Cell.num 1, Cell.num 1]),
        ("Histogram", [Cell.num (-1), Cell.num 1]),
        ("Buy Signal", [Cell.flag false, Cell.flag true])]) ∧
    DataFrame.mk [("Datetime", [Cell.time 100, Cell.time 200]),
        ("Close", [Cell.num 10, Cell.num 11]),
        ("MACD", [Cell.num 0, Cell.num 2]),
        ("Signal Line", [Cell.num 1, Cell.num 1]),
        ("Histogram", [Cell.num (-1), Cell.num 1]),
        ("Buy Signal", [Cell.flag false, Cell.flag true])] ≠
      DataFrame.mk [("Datetime", [Cell.time 100, Cell.time 200]),
        ("Close", [Cell.num 10, Cell.num 11])] :=
  ⟨rfl, by decide⟩

/-- C7 amended: the calculations mutate the caller's dataframe in place,
adding or overwriting exactly the derived columns (`MACD`, `Signal Line`,
`Histogram`, `Buy Signal` for MACD; `RSI_<res>`, `Buy Signal` for RSI);
every other column — in particular the close prices and the timestamps —
is unchanged after the call. -/
theorem engine_frame_effect :
    (∀ tf cfg df d aux, calculate_macd tf cfg df = Except.ok (d, aux) →
      ∀ n, n ≠ "MACD" → n ≠ "Signal Line" → n ≠ "Histogram" → n ≠ "Buy Signal" →
        d.getCol n = df.getCol n) ∧
    (∀ tf cfg res df d aux, calculate_rsi tf cfg res df = Except.ok (d, aux) →
      ∀ n, n ≠ "RSI_" ++ res → n ≠ "Buy Signal" →
        d.getCol n = df.getCol n) := by
  constructor
  · intro tf cfg df d aux h n h1 h2 h3 h4
    obtain ⟨hd, -⟩ := calculate_macd_ok tf cfg df d aux h
    rw [hd, getCol_setCol_ne _ _ _ _ h4, getCol_setCol_ne _ _ _ _ h3,
      getCol_setCol_ne _ _ _ _ h2, getCol_setCol_ne _ _ _ _ h1]
  · intro tf cfg res df d aux h n h1 h2
    obtain ⟨hd, -⟩ := calculate_rsi_ok tf cfg res df d aux h
    rw [hd, getCol_setCol_ne _ _ _ _ h2, getCol_setCol_ne _ _ _ _ h1]

/-- Witness for the amended C7: on the concrete two-bar MACD call the
close column reads back unchanged. -/
theorem engine_frame_effect_witness :
    (DataFrame.mk [("Datetime", [Cell.time 100, Cell.time 200]),
      ("Close", [Cell.num 10, Cell.num 11]),
      ("MACD", [Cell.num 0, Cell.num 2]),
      ("Signal Line", [Cell.num 1, Cell.num 1]),
      ("Histogram", [Cell.num (-1), Cell.num 1]),
      ("Buy Signal", [Cell.flag false, Cell.flag true])]).getCol "Close" =
    (DataFrame.mk [("Datetime", [Cell.time 100, Cell.time 200]),
      ("Close", [Cell.num 10, Cell.num 11])]).getCol "Close" :=
  engine_frame_effect.1
    (fun _ _ => ([some 0, some 2], [some 1, some 1], [some (-1), some 1]))
    ⟨12, 26, 9⟩ _ _ (some 200) (by rfl) "Close"
    (by decide) (by decide) (by decide) (by decide)

lemma any_id_false_of_no_flag (flags : List Bool)
    (h : ∀ c ∈ flags.map Cell.flag, c ≠ Cell.flag true) : flags.any id = false := by
  rw [List.any_eq_false]
  intro b hb
  have hc := h (Cell.flag b) (List.mem_map_of_mem Cell.flag hb)
  cases b with
  | true => exact absurd rfl hc
  | false => simp

/-- C10: when the computed buy-flag column contains no true flag, the
auxiliary most-recent-signal scalar is `None` rather than a timestamp,
for both the MACD and the RSI calculation. -/
theorem no_flag_aux_none :
    (∀ tf cfg df d aux, calculate_macd tf cfg df = Except.ok (d, aux) →
      (∀ c ∈ (d.getCol "Buy Signal").getD [], c ≠ Cell.flag true) → aux = none) ∧
    (∀ tf cfg res df d aux, calculate_rsi tf cfg res df = Except.ok (d, aux) →
      (∀ c ∈ (d.getCol "Buy Signal").getD [], c ≠ Cell.flag true) → aux = none) := by
  constructor
  · intro tf cfg df d aux h hno
    obtain ⟨hd, hcase⟩ := calculate_macd_ok tf cfg df d aux h
    have hbuy : d.getCol "Buy Signal" =
        some ((crossUp (tf cfg (df.numCol "Close")).1
          (tf cfg (df.numCol "Close")).2.1).map Cell.flag) := by
      rw [hd]
      exact getCol_setCol_self _ _ _
    rw [hbuy] at hno
    have hany := any_id_false_of_no_flag _ (by simpa using hno)
    rcases hcase with ⟨-, ha⟩ | ⟨histrue, -⟩
    · exact ha
    · rw [hany] at histrue
      cases histrue
  · intro tf cfg res df d aux h hno
    obtain ⟨hd, hcase⟩ := calculate_rsi_ok tf cfg res df d aux h
    have hbuy : d.getCol "Buy Signal" =
        some ((rsiBuy (tf cfg (df.numCol "Close")) cfg.low_line).map Cell.flag) := by
      rw [hd]
      exact getCol_setCol_self _ _ _
    rw [hbuy] at hno
    have hany := any_id_false_of_no_flag _ (by simpa using hno)
    rcases hcase with ⟨-, ha⟩ | ⟨histrue, -⟩
    · exact ha
    · rw [hany] at histrue
      cases histrue

/-- Witness for C10: a one-bar series can produce no crossover, and the
call indeed returns `None` as the scalar. -/
theorem no_flag_aux_none_witness :
    calculate_macd (fun _ _ => ([some 1], [some 2], [some 1])) ⟨12, 26, 9⟩
        ⟨[("Datetime", [Cell.time 7]), ("Close", [Cell.num 5])]⟩ =
      Except.ok (DataFrame.mk [("Datetime", [Cell.time 7]), ("Close", [Cell.num 5]),
        ("MACD", [Cell.num 1]), ("Signal Line", [Cell.num 2]),
        ("Histogram", [Cell.num 1]), ("Buy Signal", [Cell.flag false])], none) ∧
    (none : Option ℕ) = none :=
  ⟨rfl, no_flag_aux_none.1 (fun _ _ => ([some 1], [some 2], [some 1])) ⟨12, 26, 9⟩
    ⟨[("Datetime", [Cell.time 7]), ("Close", [Cell.num 5])]⟩
    (DataFrame.mk [("Datetime", [Cell.time 7]), ("Close", [Cell.num 5]),
      ("MACD", [Cell.num 1]), ("Signal Line", [Cell.num 2]),
      ("Histogram", [Cell.num 1]), ("Buy Signal", [Cell.flag false])]) none
    rfl (by decide)⟩

lemma selectFlagged_cons_true (t : ℕ) (ts : List ℕ) (fs : List Bool) :
    selectFlagged (t :: ts) (true :: fs) = t :: selectFlagged ts fs := rfl

lemma selectFlagged_cons_false (t : ℕ) (ts : List ℕ) (fs : List Bool) :
    selectFlagged (t :: ts) (false :: fs) = selectFlagged ts fs := rfl

lemma mem_selectFlagged (x : ℕ) (times : List ℕ) (flags : List Bool) :
    x ∈ selectFlagged times flags ↔
      ∃ j, j < times.length ∧ j < flags.length ∧
        flags.getD j false = true ∧ times.getD j 0 = x := by
  induction times generalizing flags with
  | nil => simp [selectFlagged]
  | cons t ts ih =>
    cases flags with
    | nil => simp [selectFlagged]
    | cons f fs =>
      cases f with
      | true =>
        rw [selectFlagged_cons_true, List.mem_cons]
        constructor
        · rintro (rfl | hx)
          · exact ⟨0, by simp, by simp, rfl, rfl⟩
          · obtain ⟨j, h1, h2, h3, h4⟩ := (ih fs).mp hx
            exact ⟨j + 1, by simpa using h1, by simpa using h2,
              by simpa using h3, by simpa using h4⟩
        · rintro ⟨j, h1, h2, h3, h4⟩
          cases j with
          | zero =>
            left
            simpa using h4.symm
          | succ j =>
            right
            exact (ih fs).mpr ⟨j, by simpa using h1, by simpa using h2,
              by simpa using h3, by simpa using h4⟩
      | false =>
        rw [selectFlagged_cons_false, ih fs]
        constructor
        · rintro ⟨j, h1, h2, h3, h4⟩
          exact ⟨j + 1, by simpa using h1, by simpa using h2,
            by simpa using h3, by simpa using h4⟩
        · rintro ⟨j, h1, h2, h3, h4⟩
          cases j with
          | zero => simp at h3
          | succ j =>
            exact ⟨j, by simpa using h1, by simpa using h2,
              by simpa using h3, by simpa using h4⟩

lemma listMax_cons (x y : ℕ) (ys : List ℕ) :
    listMax x (y :: ys) = listMax (max x y) ys := rfl

lemma le_listMax_self (x : ℕ) (xs : List ℕ) : x ≤ listMax x xs := by
  induction xs generalizing x with
  | nil => exact le_refl x
  | cons y ys ih =>
    rw [listMax_cons]
    exact le_trans (le_max_left x y) (ih (max x y))

lemma le_listMax_of_mem (y x : ℕ) (xs : List ℕ) (h : y ∈ xs) : y ≤ listMax x xs := by
  induction xs generalizing x with
  | nil => cases h
  | cons z zs ih =>
    rw [listMax_cons]
    rcases List.mem_cons.mp h with rfl | hm
    · exact le_trans (le_max_right x y) (le_listMax_self (max x y) zs)
    · exact ih (max x z) hm

lemma listMax_mem (x : ℕ) (xs : List ℕ) : listMax x xs = x ∨ listMax x xs ∈ xs := by
  induction xs generalizing x with
  | nil => exact Or.inl rfl
  | cons y ys ih =>
    rw [listMax_cons]
    rcases ih (max x y) with he | hm
    · rcases max_choice x y with hc | hc
      · exact Or.inl (he.trans hc)
      · refine Or.inr ?_
        rw [he, hc]
        exact List.mem_cons_self y ys
    · exact Or.inr (List.mem_cons_of_mem y hm)

lemma lastBuySignal_eq_of_last_flag (times : List ℕ) (flags : List Bool) (k : ℕ)
    (hsort : times.Pairwise (· < ·))
    (hlen : flags.length ≤ times.length)
    (hk : k < flags.length)
    (hkt : flags.getD k false = true)
    (hlast : ∀ j, k < j → j < flags.length → flags.getD j false = false) :
    lastBuySignal times flags = some (times.getD k 0) := by
  have hkT : k < times.length := lt_of_lt_of_le hk hlen
  have hkmem : times.getD k 0 ∈ selectFlagged times flags :=
    (mem_selectFlagged _ times flags).mpr ⟨k, hkT, hk, hkt, rfl⟩
  have hmax : ∀ x ∈ selectFlagged times flags, x ≤ times.getD k 0 := by
    intro x hx
    obtain ⟨j, hj1, hj2, hj3, hj4⟩ := (mem_selectFlagged x times flags).mp hx
    have hjk : j ≤ k := by
      by_contra hgt
      push_neg at hgt
      rw [hlast j hgt hj2] at hj3
      cases hj3
    rcases eq_or_lt_of_le hjk with rfl | hlt
    · rw [hj4]
    · rw [← hj4]
      apply le_of_lt
      rw [List.getD_eq_getElem?_getD, List.getD_eq_getElem?_getD,
        List.getElem?_eq_getElem hj1, List.getElem?_eq_getElem hkT]
      exact List.pairwise_iff_getElem.mp hsort j k hj1 hkT hlt
  unfold lastBuySignal
  cases hsel : selectFlagged times flags with
  | nil =>
    rw [hsel] at hkmem
    cases hkmem
  | cons x xs =>
    rw [hsel] at hkmem hmax
    have h1 : listMax x xs ≤ times.getD k 0 := by
      rcases listMax_mem x xs with he | hm
      · rw [he]
        exact hmax x (List.mem_cons_self x xs)
      · exact hmax _ (List.mem_cons_of_mem _ hm)
    have h2 : times.getD k 0 ≤ listMax x xs := by
      rcases List.mem_cons.mp hkmem with he | hm
      · rw [he]
        exact le_listMax_self x xs
      · exact le_listMax_of_mem _ _ _ hm
    show some (listMax x xs) = some (times.getD k 0)
    rw [le_antisymm h1 h2]

lemma getD_map_flag (flags : List Bool) (k : ℕ) (hk : k < flags.length) :
    (flags.map Cell.flag).getD k Cell.nan = Cell.flag (flags.getD k false) := by
  rw [List.getD_eq_getElem?_getD, List.getElem?_map, List.getElem?_eq_getElem hk,
    List.getD_eq_getElem?_getD, List.getElem?_eq_getElem hk]
  rfl

lemma getD_map_time (tc : List Cell) (k : ℕ) (hk : k < tc.length) :
    (tc.map cellTime).getD k 0 = cellTime (tc.getD k Cell.nan) := by
  rw [List.getD_eq_getElem?_getD, List.getElem?_map, List.getElem?_eq_getElem hk,
    List.getD_eq_getElem?_getD, List.getElem?_eq_getElem hk]
  rfl

lemma flags_facts_of_cells (flags : List Bool) (fc : List Cell) (k : ℕ)
    (hfc : fc = flags.map Cell.flag)
    (hk : k < fc.length)
    (hkt : fc.getD k Cell.nan = Cell.flag true)
    (hlast : ∀ j, k < j → j < fc.length → fc.getD j Cell.nan ≠ Cell.flag true) :
    k < flags.length ∧ flags.getD k false = true ∧
      (∀ j, k < j → j < flags.length → flags.getD j false = false) ∧
      flags.any id = true := by
  subst hfc
  rw [List.length_map] at hk hlast
  have hkt2 : flags.getD k false = true := by
    rw [getD_map_flag flags k hk] at hkt
    exact Cell.flag.inj hkt
  refine ⟨hk, hkt2, fun j hj1 hj2 => ?_, ?_⟩
  · have := hlast j hj1 hj2
    rw [getD_map_flag flags j hj2] at this
    cases hb : flags.getD j false with
    | true => exact absurd (by rw [hb]) this
    | false => rfl
  · rw [List.any_eq_true]
    refine ⟨true, ?_, rfl⟩
    have : flags.getD k false ∈ flags := by
      rw [List.getD_eq_getElem?_getD, List.getElem?_eq_getElem hk, Option.getD_some]
      exact List.getElem_mem hk
    rwa [hkt2] at this

/-- C8: for both calculations, when the timestamp column is strictly
increasing and the stored buy-flag column has its last true flag at index
`k`, the auxiliary most-recent-signal scalar equals the timestamp at `k`
(the last flagged bar), independently of the rest of the flag series. -/
theorem aux_eq_last_flagged_time :
    (∀ tf cfg df d aux tc fc k, calculate_macd tf cfg df = Except.ok (d, aux) →
      d.getCol "Datetime" = some tc → d.getCol "Buy Signal" = some fc →
      (tc.map cellTime).Pairwise (· < ·) → fc.length ≤ tc.length →
      k < fc.length → fc.getD k Cell.nan = Cell.flag true →
      (∀ j, k < j → j < fc.length → fc.getD j Cell.nan ≠ Cell.flag true) →
      aux = some (cellTime (tc.getD k Cell.nan))) ∧
    (∀ tf cfg res df d aux tc fc k, calculate_rsi tf cfg res df = Except.ok (d, aux) →
      d.getCol "Datetime" = some tc → d.getCol "Buy Signal" = some fc →
      (tc.map cellTime).Pairwise (· < ·) → fc.length ≤ tc.length →
      k < fc.length → fc.getD k Cell.nan = Cell.flag true →
      (∀ j, k < j → j < fc.length → fc.getD j Cell.nan ≠ Cell.flag true) →
      aux = some (cellTime (tc.getD k Cell.nan))) := by
  constructor
  · intro tf cfg df d aux tc fc k h htc hfc hsort hlenle hk hkt hlast
    obtain ⟨hd, hcase⟩ := calculate_macd_ok tf cfg df d aux h
    set fl := crossUp (tf cfg (df.numCol "Close")).1
      (tf cfg (df.numCol "Close")).2.1 with hfldef
    have hbuy : d.getCol "Buy Signal" = some (fl.map Cell.flag) := by
      rw [hd]
      exact getCol_setCol_self _ _ _
    have hfc2 : fc = fl.map Cell.flag := by
      rw [hfc] at hbuy
      exact Option.some.inj hbuy
    obtain ⟨hk2, hkt2, hlast2, hany⟩ := flags_facts_of_cells fl fc k hfc2 hk hkt hlast
    rcases hcase with ⟨hanyf, -⟩ | ⟨-, tc2, htc2, haux⟩
    · rw [hany] at hanyf
      cases hanyf
    · have htceq : tc = tc2 := by
        rw [htc] at htc2
        exact Option.some.inj htc2
      subst htceq
      have hkTC : k < tc.length := lt_of_lt_of_le hk hlenle
      have hfl : fl.length = fc.length := by
        rw [hfc2, List.length_map]
      have hlen2 : fl.length ≤ (tc.map cellTime).length := by
        rw [List.length_map, hfl]
        exact hlenle
      rw [haux, lastBuySignal_eq_of_last_flag (tc.map cellTime) fl k hsort hlen2
        hk2 hkt2 hlast2, getD_map_time tc k hkTC]
  · intro tf cfg res df d aux tc fc k h htc hfc hsort hlenle hk hkt hlast
    obtain ⟨hd, hcase⟩ := calculate_rsi_ok tf cfg res df d aux h
    set fl := rsiBuy (tf cfg (df.numCol "Close")) cfg.low_line with hfldef
    have hbuy : d.getCol "Buy Signal" = some (fl.map Cell.flag) := by
      rw [hd]
      exact getCol_setCol_self _ _ _
    have hfc2 : fc = fl.map Cell.flag := by
      rw [hfc] at hbuy
      exact Option.some.inj hbuy
    obtain ⟨hk2, hkt2, hlast2, hany⟩ := flags_facts_of_cells fl fc k hfc2 hk hkt hlast
    rcases hcase with ⟨hanyf, -⟩ | ⟨-, tc2, htc2, haux⟩
    · rw [hany] at hanyf
      cases hanyf
    · have htceq : tc = tc2 := by
        rw [htc] at htc2
        exact Option.some.inj htc2
      subst htceq
      have hkTC : k < tc.length := lt_of_lt_of_le hk hlenle
      have hfl : fl.length = fc.length := by
        rw [hfc2, List.length_map]
      have hlen2 : fl.length ≤ (tc.map cellTime).length := by
        rw [List.length_map, hfl]
        exact hlenle
      rw [haux, lastBuySignal_eq_of_last_flag (tc.map cellTime) fl k hsort hlen2
        hk2 hkt2 hlast2, getD_map_time tc k hkTC]

/-- Witness for C8: the concrete two-bar MACD call flags bar 1 and
returns timestamp 200, the timestamp of that last flagged bar. -/
theorem aux_eq_last_flagged_time_witness :
    (some 200 : Option ℕ) =
      some (cellTime ([Cell.time 100, Cell.time 200].getD 1 Cell.nan)) :=
  aux_eq_last_flagged_time.1
    (fun _ _ => ([some 0, some 2], [some 1, some 1], [some (-1), some 1]))
    ⟨12, 26, 9⟩
    ⟨[("Datetime", [Cell.time 100, Cell.time 200]),
      ("Close", [Cell.num 10, Cell.num 11])]⟩
    (DataFrame.mk [("Datetime", [Cell.time 100, Cell.time 200]),
      ("Close", [Cell.num 10, Cell.num 11]),
      ("MACD", [Cell.num 0, Cell.num 2]),
      ("Signal Line", [Cell.num 1, Cell.num 1]),
      ("Histogram", [Cell.num (-1), Cell.num 1]),
      ("Buy Signal", [Cell.flag false, Cell.flag true])])
    (some 200)
    [Cell.time 100, Cell.time 200]
    [Cell.flag false, Cell.flag true]
    1 rfl rfl rfl (by decide) (by decide) (by decide) (by decide)
    (fun j hj1 hj2 => absurd (lt_of_lt_of_le hj1 (Nat.lt_succ_iff.mp hj2)) (lt_irrefl 1))

lemma sigtype_extractSignals (symbol indName : String) (d : DataFrame) :
    ∀ r ∈ extractSignals symbol indName d, r.sigtype = sigTypeOf indName := by
  intro r hr
  unfold extractSignals at hr
  cases hbs : d.getCol "Buy Signal" with
  | none =>
    rw [hbs] at hr
    simp at hr
  | some flagcells =>
    rw [hbs] at hr
    simp only at hr
    obtain ⟨a, ha, hfa⟩ := List.mem_filterMap.mp hr
    rcases a with ⟨t, c⟩
    cases c with
    | flag b =>
      cases b with
      | true =>
        simp only at hfa
        rw [← Option.some.inj hfa]
      | false => simp at hfa
    | num q => simp at hfa
    | nan => simp at hfa
    | time tt => simp at hfa

lemma sigtype_processIndicators (symbol : String) (inds : List Indicator)
    (d : DataFrame) (sigs : List SignalRecord)
    (h : processIndicators symbol inds d = Except.ok sigs) :
    ∀ r ∈ sigs, ∃ ind ∈ inds, r.sigtype = sigTypeOf ind.name := by
  induction inds generalizing d sigs with
  | nil =>
    unfold processIndicators at h
    rw [← Except.ok.inj h]
    intro r hr
    cases hr
  | cons ind rest ih =>
    unfold processIndicators at h
    cases hrun : ind.run d with
    | error e =>
      rw [hrun] at h
      have h2 : (Except.error e : Except String (List SignalRecord)) = Except.ok sigs := h
      exact Except.noConfusion h2
    | ok rr =>
      rw [hrun] at h
      have h2 : (do
          let more ← processIndicators symbol rest rr.1
          Except.ok (extractSignals symbol ind.name rr.1 ++ more)) = Except.ok sigs := h
      cases hmore : processIndicators symbol rest rr.1 with
      | error e =>
        rw [hmore] at h2
        have h3 : (Except.error e : Except String (List SignalRecord)) = Except.ok sigs := h2
        exact Except.noConfusion h3
      | ok more =>
        rw [hmore] at h2
        have h3 : Except.ok (extractSignals symbol ind.name rr.1 ++ more) =
            Except.ok sigs := h2
        rw [← Except.ok.inj h3]
        intro r hr
        rcases List.mem_append.mp hr with hl | hrt
        · exact ⟨ind, List.mem_cons_self ind rest,
            sigtype_extractSignals symbol ind.name rr.1 r hl⟩
        · obtain ⟨i, hi, hs⟩ := ih rr.1 more hmore r hrt
          exact ⟨i, List.mem_cons_of_mem ind hi, hs⟩

lemma sigtype_collectSignals (inds : List Indicator)
    (files : List (String × DataFrame)) (sigs : List SignalRecord)
    (h : collectSignals inds files = Except.ok sigs) :
    ∀ r ∈ sigs, ∃ ind ∈ inds, r.sigtype = sigTypeOf ind.name := by
  induction files generalizing sigs with
  | nil =>
    unfold collectSignals at h
    rw [← Except.ok.inj h]
    intro r hr
    cases hr
  | cons f rest ih =>
    unfold collectSignals at h
    cases hpf : processFile inds f with
    | error e =>
      rw [hpf] at h
      have h2 : (Except.error e : Except String (List SignalRecord)) = Except.ok sigs := h
      exact Except.noConfusion h2
    | ok s1 =>
      rw [hpf] at h
      have h2 : (do
          let more ← collectSignals inds rest
          Except.ok (s1 ++ more)) = Except.ok sigs := h
      cases hrest : collectSignals inds rest with
      | error e =>
        rw [hrest] at h2
        have h3 : (Except.error e : Except String (List SignalRecord)) = Except.ok sigs := h2
        exact Except.noConfusion h3
      | ok more =>
        rw [hrest] at h2
        have h3 : Except.ok (s1 ++ more) = Except.ok sigs := h2
        rw [← Except.ok.inj h3]
        intro r hr
        rcases List.mem_append.mp hr with hl | hrt
        · have hpi : processIndicators f.1 inds f.2 = Except.ok s1 := by
            unfold processFile at hpf
            split at hpf
            · exact Except.noConfusion hpf
            · exact hpf
          exact sigtype_processIndicators f.1 inds f.2 s1 hpi r hl
        · exact ih more hrest r hrt

/-- C9: every record the pipeline emits has its signal type derived from
its indicator's `__name__` by stripping the lower-cased `calculate_`
keyword and upper-casing the remainder; in particular `calculate_macd`
yields `MACD` and `calculate_rsi` yields `RSI`. -/
theorem signal_type_from_indicator_name :
    (∀ inds files sigs, collectSignals inds files = Except.ok sigs →
      ∀ r ∈ sigs, ∃ ind ∈ inds, r.sigtype = sigTypeOf ind.name) ∧
    sigTypeOf "calculate_macd" = "MACD" ∧ sigTypeOf "calculate_rsi" = "RSI" :=
  ⟨fun inds files sigs h => sigtype_collectSignals inds files sigs h, rfl, rfl⟩

/-- Witness for C9: the record emitted by a concrete one-symbol MACD run
carries signal type `MACD`, derived from the name `calculate_macd`. -/
theorem signal_type_from_indicator_name_witness :
    ∃ ind ∈ [Indicator.mk "calculate_macd"
        (calculate_macd
          (fun _ _ => ([some 0, some 2], [some 1, some 1], [some (-1), some 1]))
          ⟨12, 26, 9⟩)],
      (SignalRecord.mk 200 "GOOG" "MACD").sigtype = sigTypeOf ind.name :=
  signal_type_from_indicator_name.1
    [⟨"calculate_macd", calculate_macd
      (fun _ _ => ([some 0, some 2], [some 1, some 1], [some (-1), some 1]))
      ⟨12, 26, 9⟩⟩]
    [("GOOG", ⟨[("Datetime", [Cell.time 100, Cell.time 200]),
      ("Close", [Cell.num 10, Cell.num 11])]⟩)]
    [⟨200, "GOOG", "MACD"⟩] rfl
    ⟨200, "GOOG", "MACD"⟩ (List.mem_singleton.mpr rfl)

/-- C3 counterexample: one valid symbol (which alone yields a signal) and
one symbol whose file lacks the timestamp column: the run raises instead
of continuing, and the whole pipeline (including the sink step) fails, so
the valid symbol produces no output either — refuting the claimed
per-(symbol, indicator) isolation. -/
theorem bad_file_aborts_run :
    collectSignals
      [⟨"calculate_macd", calculate_macd
        (fun _ _ => ([some 0, some 2], [some 1, some 1], [some (-1), some 1]))
        ⟨12, 26, 9⟩⟩]
      [("GOOG", ⟨[("Datetime", [Cell.time 100, Cell.time 200]),
        ("Close", [Cell.num 10, Cell.num 11])]⟩)] =
      Except.ok [⟨200, "GOOG", "MACD"⟩] ∧
    collectSignals
      [⟨"calculate_macd", calculate_macd
        (fun _ _ => ([some 0, some 2], [some 1, some 1], [some (-1), some 1]))
        ⟨12, 26, 9⟩⟩]
      [("GOOG", ⟨[("Datetime", [Cell.time 100, Cell.time 200]),
        ("Close", [Cell.num 10, Cell.num 11])]⟩),
       ("BAD", ⟨[("Close", [Cell.num 5])]⟩)] =
      Except.error "The file BAD.csv must contain a Datetime column." ∧
    runPipeline
      [⟨"calculate_macd", calculate_macd
        (fun _ _ => ([some 0, some 2], [some 1, some 1], [some (-1), some 1]))
        ⟨12, 26, 9⟩⟩]
      [("GOOG", ⟨[("Datetime", [Cell.time 100, Cell.time 200]),
        ("Close", [Cell.num 10, Cell.num 11])]⟩),
       ("BAD", ⟨[("Close", [Cell.num 5])]⟩)] none =
      Except.error "The file BAD.csv must contain a Datetime column." :=
  ⟨rfl, rfl, rfl⟩

lemma collectSignals_error_of_bad_file (inds : List Indicator)
    (files : List (String × DataFrame))
    (hbad : ∃ f ∈ files, f.2.hasCol "Datetime" = false) :
    ∃ e, collectSignals inds files = Except.error e := by
  induction files with
  | nil =>
    obtain ⟨f, hf, -⟩ := hbad
    cases hf
  | cons g rest ih =>
    obtain ⟨f, hf, hcol⟩ := hbad
    unfold collectSignals
    cases hpf : processFile inds g with
    | error e => exact ⟨e, rfl⟩
    | ok s1 =>
      rcases List.mem_cons.mp hf with rfl | hfr
      · unfold processFile at hpf
        rw [hcol, if_pos rfl] at hpf
        exact Except.noConfusion hpf
      · obtain ⟨e, he⟩ := ih ⟨f, hfr, hcol⟩
        refine ⟨e, ?_⟩
        show (do
          let more ← collectSignals inds rest
          Except.ok (s1 ++ more)) = Except.error e
        rw [he]
        rfl

/-- C3 amended: a failure in one (symbol, indicator) invocation aborts
the entire run before anything is written: whenever any file in the run
lacks the timestamp column, the whole pipeline call fails with an error
and no symbol — valid or not — produces output. -/
theorem bad_file_aborts_whole_run (inds : List Indicator)
    (files : List (String × DataFrame)) (fs : FileState)
    (hbad : ∃ f ∈ files, f.2.hasCol "Datetime" = false) :
    ∃ e, runPipeline inds files fs = Except.error e := by
  obtain ⟨e, he⟩ := collectSignals_error_of_bad_file inds files hbad
  refine ⟨e, ?_⟩
  unfold runPipeline
  rw [he]
  rfl

/-- Witness for the amended C3 on the concrete two-file run. -/
theorem bad_file_aborts_whole_run_witness :
    ∃ e, runPipeline
      [⟨"calculate_macd", calculate_macd
        (fun _ _ => ([some 0, some 2], [some 1, some 1], [some (-1), some 1]))
        ⟨12, 26, 9⟩⟩]
      [("GOOG", ⟨[("Datetime", [Cell.time 100, Cell.time 200]),
        ("Close", [Cell.num 10, Cell.num 11])]⟩),
       ("BAD", ⟨[("Close", [Cell.num 5])]⟩)] none = Except.error e :=
  bad_file_aborts_whole_run _ _ none
    ⟨("BAD", ⟨[("Close", [Cell.num 5])]⟩),
      List.mem_cons_of_mem _ (List.mem_singleton.mpr rfl), rfl⟩

/-- C4: when a run produces at least one record, the sink writes the
header iff the destination does not yet exist and otherwise appends
records only (no header, no deduplication); hence running the pipeline
twice over an unchanged input set, starting from a nonexistent file,
yields the header exactly once and each record's count doubled. -/
theorem append_only_sink :
    ∀ inds files sigs, collectSignals inds files = Except.ok sigs → sigs ≠ [] →
      writeSignals sigs none = some (OutRow.header :: sigs.map OutRow.row) ∧
      (∀ rows, writeSignals sigs (some rows) = some (rows ++ sigs.map OutRow.row)) ∧
      (∃ f1 f2 : FileState,
        runPipeline inds files none = Except.ok f1 ∧
        runPipeline inds files f1 = Except.ok f2 ∧
        (f2.getD []).count OutRow.header = 1 ∧
        ∀ r : SignalRecord, (f2.getD []).count (OutRow.row r) = 2 * sigs.count r) := by
  intro inds files sigs h hne
  have hemp : ¬(sigs.isEmpty = true) := by
    intro hc
    exact hne (List.isEmpty_iff.mp hc)
  have hw1 : writeSignals sigs none = some (OutRow.header :: sigs.map OutRow.row) := by
    unfold writeSignals
    rw [if_neg hemp]
  have hw2 : ∀ rows, writeSignals sigs (some rows) = some (rows ++ sigs.map OutRow.row) := by
    intro rows
    unfold writeSignals
    rw [if_neg hemp]
  have hrun1 : runPipeline inds files none =
      Except.ok (some (OutRow.header :: sigs.map OutRow.row)) := by
    unfold runPipeline
    rw [h]
    show Except.ok (writeSignals sigs none) = _
    rw [hw1]
  have hrun2 : runPipeline inds files (some (OutRow.header :: sigs.map OutRow.row)) =
      Except.ok (some ((OutRow.header :: sigs.map OutRow.row) ++ sigs.map OutRow.row)) := by
    unfold runPipeline
    rw [h]
    show Except.ok (writeSignals sigs (some (OutRow.header :: sigs.map OutRow.row))) = _
    rw [hw2]
  have hnomemh : OutRow.header ∉ sigs.map OutRow.row := by
    intro hc
    obtain ⟨r, -, hr⟩ := List.mem_map.mp hc
    exact OutRow.noConfusion hr
  refine ⟨hw1, hw2, some (OutRow.header :: sigs.map OutRow.row),
    some ((OutRow.header :: sigs.map OutRow.row) ++ sigs.map OutRow.row),
    hrun1, hrun2, ?_, ?_⟩
  · show ((OutRow.header :: sigs.map OutRow.row) ++ sigs.map OutRow.row).count
      OutRow.header = 1
    rw [List.cons_append, List.count_cons_self, List.count_append,
      List.count_eq_zero.mpr hnomemh]
  · intro r
    show ((OutRow.header :: sigs.map OutRow.row) ++ sigs.map OutRow.row).count
      (OutRow.row r) = 2 * sigs.count r
    have hinj : Function.Injective OutRow.row := fun a b hab => OutRow.row.inj hab
    rw [List.cons_append,
      List.count_cons_of_ne (fun hc => OutRow.noConfusion hc),
      List.count_append, List.count_map_of_injective sigs OutRow.row hinj r]
    omega

/-- Witness for C4 on the concrete one-symbol run producing one record:
a fresh destination receives the header and the record. -/
theorem append_only_sink_witness :
    writeSignals [⟨200, "GOOG", "MACD"⟩] none =
      some (OutRow.header :: [SignalRecord.mk 200 "GOOG" "MACD"].map OutRow.row) :=
  (append_only_sink
    [⟨"calculate_macd", calculate_macd
      (fun _ _ => ([some 0, some 2], [some 1, some 1], [some (-1), some 1]))
      ⟨12, 26, 9⟩⟩]
    [("GOOG", ⟨[("Datetime", [Cell.time 100, Cell.time 200]),
      ("Close", [Cell.num 10, Cell.num 11])]⟩)]
    [⟨200, "GOOG", "MACD"⟩] rfl (by decide)).1
